import Mathlib

/-!
Shallow embedding of `python_teleop/phone_teleop/teleop_phone.py`
(class `PhoneTeleop`) and `configuration_phone.py` (`PhoneTeleopConfig`).

Python floats are modelled as rationals (`ℚ`); the mutable object state is
passed explicitly; raised exceptions become `Except` error values.
-/

namespace PhoneTeleopModel

/-- Joint names tracked by the velocity integrator: the keys of
`current_joint_positions` in `PhoneTeleop.__init__` (lines 68-75). -/
inductive Joint where
  | shoulder_pan
  | shoulder_lift
  | elbow_flex
  | wrist_flex
  | wrist_roll
  | gripper
deriving DecidableEq

/-- One velocity command: the nine fields of `current_velocity_action`
(lines 54-65). -/
structure VelocityAction where
  x_vel : ℚ
  y_vel : ℚ
  theta_vel : ℚ
  wrist_flex_vel : ℚ
  shoulder_pan_vel : ℚ
  shoulder_lift_vel : ℚ
  elbow_flex_vel : ℚ
  wrist_roll_vel : ℚ
  gripper_vel : ℚ
deriving DecidableEq

/-- The all-zero velocity command, the initial value of
`current_velocity_action` (lines 54-65). -/
def zeroVelocityAction : VelocityAction :=
  ⟨0, 0, 0, 0, 0, 0, 0, 0, 0⟩

/-- The home pose per joint: the initial value of `current_joint_positions`
(lines 68-75). -/
def initialPositions : Joint → ℚ
  | .shoulder_pan => 0
  | .shoulder_lift => -90
  | .elbow_flex => 90
  | .wrist_flex => -50
  | .wrist_roll => -50
  | .gripper => 50

/-- The configured velocity limits from `PhoneTeleopConfig`
(`configuration_phone.py`, lines 45-46). -/
structure Config where
  max_linear_velocity : ℚ
  max_angular_velocity : ℚ

/-- The default configuration values (`max_linear_velocity = 0.3`,
`max_angular_velocity = 0.5`). -/
def defaultConfig : Config := ⟨3/10, 1/2⟩

/-- Python's `max(lo, min(hi, v))` clamping pattern used throughout
`teleop_phone.py`. -/
def clamp (lo hi v : ℚ) : ℚ := max lo (min hi v)

/-- Per-joint limit clamp applied in `get_action` (lines 285-289):
`[0, 100]` for the gripper, `[-100, 100]` for every other joint. -/
def clampJoint (j : Joint) (p : ℚ) : ℚ :=
  if j = .gripper then clamp 0 100 p else clamp (-100) 100 p

/-- Extraction of per-joint velocities from the current action, mirroring the
`joint_velocities` dict built in `get_action` (lines 270-277). -/
def jointVel (a : VelocityAction) : Joint → ℚ
  | .shoulder_pan => a.shoulder_pan_vel
  | .shoulder_lift => a.shoulder_lift_vel
  | .elbow_flex => a.elbow_flex_vel
  | .wrist_flex => a.wrist_flex_vel
  | .wrist_roll => a.wrist_roll_vel
  | .gripper => a.gripper_vel

/-- One integration step of `get_action` (lines 279-289): for each joint,
if the velocity magnitude exceeds the `0.01` deadband, add
`velocity * dt * 60` to the stored position and clamp to the joint's limit
range; otherwise leave the position unchanged. -/
def integrate (pos : Joint → ℚ) (a : VelocityAction) (dt : ℚ) : Joint → ℚ :=
  fun j =>
    let v := jointVel a j
    if 1/100 < |v| then clampJoint j (pos j + v * dt * 60) else pos j

/-- The clamp range of a joint, as enforced by `get_action` lines 286-289:
`[0, 100]` for the gripper, `[-100, 100]` otherwise. -/
def inJointRange (j : Joint) (p : ℚ) : Prop :=
  if j = .gripper then 0 ≤ p ∧ p ≤ 100 else -100 ≤ p ∧ p ≤ 100

/-- Running the integrator over a sequence of (command, dt) samples starting
from the home pose, as successive `get_action` calls do. -/
def runIntegrator (steps : List (VelocityAction × ℚ)) : Joint → ℚ :=
  steps.foldl (fun pos st => integrate pos st.1 st.2) initialPositions

/-- A parsed inbound frame handed to `_process_message` (lines 183-238):
either malformed JSON (`json.loads` raises `JSONDecodeError`) or a JSON
object with an optional `"type"` field and a lookup for numeric fields
(`data.get(key, 0.0)`). -/
inductive Frame where
  | malformed
  | object (type? : Option String) (get : String → Option ℚ)

/-- Decoding of an `"action"` frame in `_process_message` (lines 189-222):
every field defaults to `0.0` when absent from the payload, and the base
fields `x.vel`, `y.vel`, `theta.vel` are clamped to the configured
linear/angular velocity limits (lines 203-209). -/
def decodeAction (cfg : Config) (get : String → Option ℚ) : VelocityAction :=
  { x_vel := clamp (-cfg.max_linear_velocity) cfg.max_linear_velocity
      ((get "x.vel").getD 0)
    y_vel := clamp (-cfg.max_linear_velocity) cfg.max_linear_velocity
      ((get "y.vel").getD 0)
    theta_vel := clamp (-cfg.max_angular_velocity) cfg.max_angular_velocity
      ((get "theta.vel").getD 0)
    wrist_flex_vel := (get "wrist_flex.vel").getD 0
    shoulder_pan_vel := (get "shoulder_pan.vel").getD 0
    shoulder_lift_vel := (get "shoulder_lift.vel").getD 0
    elbow_flex_vel := (get "elbow_flex.vel").getD 0
    wrist_roll_vel := (get "wrist_roll.vel").getD 0
    gripper_vel := (get "gripper.vel").getD 0 }

/-- Capacity of `action_queue` (`Queue(maxsize=10)`, line 50). -/
def queueCapacity : Nat := 10

/-- Non-blocking enqueue, `put_nowait` wrapped in `try/except: pass`
(lines 230-233): a full queue drops the new item without error. The boolean
reports whether the item was accepted. -/
def enqueue (q : List VelocityAction) (m : VelocityAction) :
    List VelocityAction × Bool :=
  if q.length < queueCapacity then (q ++ [m], true) else (q, false)

/-- Observable outcome of `_process_message` on one frame. The source has no
explicit decode-error value for an unknown `type`: the only caught error is
malformed JSON; every non-`"action"` type falls through the single
`if message_type == "action"` branch with no effect. -/
inductive Outcome where
  | enqueued
  | droppedFull
  | ignored
  | parseError
deriving DecidableEq

/-- The state `_process_message` can touch: the bounded `action_queue` and
`current_velocity_action`. -/
structure CommandState where
  queue : List VelocityAction
  current : VelocityAction
deriving DecidableEq

/-- Model of `_process_message` (lines 183-238): parse the frame, read its
`"type"`; an `"action"` frame is decoded, stored as the current action and a
copy enqueued (dropped silently when the queue is full); any other or missing
type does nothing; malformed JSON is caught and logged. -/
def processMessage (cfg : Config) (s : CommandState) :
    Frame → CommandState × Outcome
  | .malformed => (s, .parseError)
  | .object type? get =>
    if type? = some "action" then
      let cmd := decodeAction cfg get
      let eq := enqueue s.queue cmd
      (⟨eq.1, cmd⟩, if eq.2 then .enqueued else .droppedFull)
    else (s, .ignored)

/-- Producing a burst of messages before any drain: fold `enqueue` over the
message list starting from an empty queue. -/
def produceBurst (msgs : List VelocityAction) : List VelocityAction :=
  msgs.foldl (fun q m => (enqueue q m).1) []

/-- Errors raised by the lifecycle methods: `DeviceAlreadyConnectedError` and
`DeviceNotConnectedError` from `lerobot.common.errors`. -/
inductive TeleopError where
  | alreadyConnected
  | notConnected
deriving DecidableEq

/-- Full mutable state of a `PhoneTeleop` object as the claims need it:
the `_connected` and `_phone_connected` flags, the action queue, the current
velocity action and the integrated joint positions. -/
structure TeleopState where
  connected : Bool
  phoneConnected : Bool
  queue : List VelocityAction
  current : VelocityAction
  positions : Joint → ℚ

/-- The drain loop of `get_action` (lines 257-262): `get_nowait()` in a
`while True` loop overwrites the current action until the queue raises
`Empty`, so the result is the last queued message, or the previous current
action when the queue was empty. -/
def drainQueue (q : List VelocityAction) (cur : VelocityAction) :
    VelocityAction :=
  q.getLast?.getD cur

/-- The action dict returned by `get_action` (lines 291-304): base velocities
from the current action plus the integrated joint positions. -/
structure ActionOutput where
  x_vel : ℚ
  y_vel : ℚ
  theta_vel : ℚ
  arm_shoulder_pan_pos : ℚ
  arm_shoulder_lift_pos : ℚ
  arm_elbow_flex_pos : ℚ
  arm_wrist_flex_pos : ℚ
  arm_wrist_roll_pos : ℚ
  arm_gripper_pos : ℚ
deriving DecidableEq

/-- `get_action` (lines 248-308): raise `DeviceNotConnectedError` unless
`is_connected` (that is, `_connected and _phone_connected`, lines 105-108);
drain the queue keeping the last dequeued message as current; integrate the
joint velocities over the elapsed `dt`; return base velocities plus
integrated joint positions. -/
def getAction (s : TeleopState) (dt : ℚ) :
    Except TeleopError (ActionOutput × TeleopState) :=
  if s.connected && s.phoneConnected then
    let cur := drainQueue s.queue s.current
    let pos := integrate s.positions cur dt
    .ok ({ x_vel := cur.x_vel
           y_vel := cur.y_vel
           theta_vel := cur.theta_vel
           arm_shoulder_pan_pos := pos .shoulder_pan
           arm_shoulder_lift_pos := pos .shoulder_lift
           arm_elbow_flex_pos := pos .elbow_flex
           arm_wrist_flex_pos := pos .wrist_flex
           arm_wrist_roll_pos := pos .wrist_roll
           arm_gripper_pos := pos .gripper },
         { s with queue := [], current := cur, positions := pos })
  else .error .notConnected

/-- `connect` (lines 115-142): raise `DeviceAlreadyConnectedError` when
`_connected` is already set; otherwise set `_connected`, start the websocket
thread and poll until `_phone_connected` or the timeout elapses. `phoneUp`
abstracts whether the websocket thread set `_phone_connected` within the
timeout; on timeout, `_connected` is reset to `False` before
`DeviceNotConnectedError` is raised (lines 135-140). -/
def connect (s : TeleopState) (phoneUp : Bool) :
    Except TeleopError Unit × TeleopState :=
  if s.connected then (.error .alreadyConnected, s)
  else if phoneUp then
    (.ok (), { s with connected := true, phoneConnected := true })
  else (.error .notConnected, { s with connected := false })

/-- `disconnect` (lines 400-419): raise `DeviceNotConnectedError` when
`_connected` is not set; otherwise clear both connection flags. -/
def disconnect (s : TeleopState) : Except TeleopError Unit × TeleopState :=
  if s.connected then
    (.ok (), { s with connected := false, phoneConnected := false })
  else (.error .notConnected, s)

/-- A telemetry payload entry as `_send_observation_async` classifies values
(lines 334-393): a torch tensor or numpy array of some dimensionality, a
Python int or float, or any other value — Python strings fall in this last
class, since `str` is none of `torch.Tensor`, `np.ndarray`, `int`,
`float`. -/
inductive ObsValue where
  | torchTensor (ndim : Nat)
  | npArray (ndim : Nat)
  | pyInt (n : Int)
  | pyFloat (q : ℚ)
  | pyStr (s : String)
deriving DecidableEq

/-- One encoded `data` entry of the outbound observation message: its
`"type"` tag, and for the stringified fallback branch the transmitted
`str(value)` text (binary image/array payloads are abstracted to `none`). -/
structure TaggedEntry where
  tag : String
  strData : Option String
deriving DecidableEq

/-- Per-entry encoding of `_send_observation_async` (lines 334-393): 3-D
tensors/arrays are JPEG-compressed and tagged `"image"`, 1-D ones tagged
`"state"`, other dimensionalities tagged `"array"`, ints and floats tagged
`"scalar"`, and everything else — strings included — is stringified and
tagged `"string"`. There is no prefix inspection of string values. -/
def encodeEntry : ObsValue → TaggedEntry
  | .torchTensor 3 => ⟨"image", none⟩
  | .torchTensor 1 => ⟨"state", none⟩
  | .torchTensor _ => ⟨"array", none⟩
  | .npArray 3 => ⟨"image", none⟩
  | .npArray 1 => ⟨"state", none⟩
  | .npArray _ => ⟨"array", none⟩
  | .pyInt _ => ⟨"scalar", none⟩
  | .pyFloat _ => ⟨"scalar", none⟩
  | .pyStr s => ⟨"string", some s⟩

/-- A command with a single non-zero joint velocity, used as a concrete
counterexample input. -/
def cmdPan : VelocityAction := { zeroVelocityAction with shoulder_pan_vel := 1 }

/-- A concrete connected teleoperator state. -/
def connectedState : TeleopState :=
  ⟨true, true, [], zeroVelocityAction, initialPositions⟩

/-- A concrete freshly-constructed (never connected) teleoperator state. -/
def freshState : TeleopState :=
  ⟨false, false, [], zeroVelocityAction, initialPositions⟩

/-- Eleven distinct messages, one more than the queue capacity, used as a
concrete overflow burst. -/
def burst11 : List VelocityAction :=
  (List.range 11).map fun i => { zeroVelocityAction with x_vel := (i : ℚ) }

/-- A concrete connected state with one queued message, used as a witness
input. -/
def queuedState : TeleopState :=
  ⟨true, true, [cmdPan], zeroVelocityAction, initialPositions⟩

lemma clamp_mem (lo hi v : ℚ) (h : lo ≤ hi) :
    lo ≤ clamp lo hi v ∧ clamp lo hi v ≤ hi := by
  unfold clamp
  constructor
  · exact le_max_left lo _
  · exact max_le h (min_le_left hi v)

lemma inJointRange_clampJoint (j : Joint) (p : ℚ) :
    inJointRange j (clampJoint j p) := by
  unfold inJointRange clampJoint
  by_cases h : j = Joint.gripper
  · simp only [h, if_pos rfl]
    exact clamp_mem 0 100 p (by norm_num)
  · simp only [if_neg h]
    exact clamp_mem (-100) 100 p (by norm_num)

lemma inJointRange_integrate (pos : Joint → ℚ) (a : VelocityAction) (dt : ℚ)
    (j : Joint) (h : inJointRange j (pos j)) :
    inJointRange j (integrate pos a dt j) := by
  unfold integrate
  by_cases hv : 1/100 < |jointVel a j|
  · simp only [hv, if_pos]
    exact inJointRange_clampJoint j _
  · simp only [hv, if_neg, ite_false]
    exact h

lemma inJointRange_initial (j : Joint) : inJointRange j (initialPositions j) := by
  cases j <;> simp [inJointRange, initialPositions] <;> norm_num

/-- Claim C1: for every sequence of integration steps performed by
`get_action` — any joint velocities, adversarially large included, and any
`dt` — every joint position held in the integrator state (and returned
verbatim as the `arm_*.pos` fields of the action) stays within its clamp
range: `[0, 100]` for the gripper joint, `[-100, 100]` for every other
joint. -/
theorem C1_integrator_positions_in_range
    (steps : List (VelocityAction × ℚ)) (j : Joint) :
    inJointRange j (runIntegrator steps j) := by
  suffices h : ∀ pos : Joint → ℚ, (∀ j', inJointRange j' (pos j')) →
      ∀ j', inJointRange j'
        ((steps.foldl (fun p st => integrate p st.1 st.2) pos) j') from
    h initialPositions inJointRange_initial j
  induction steps with
  | nil => intro pos hpos j'; exact hpos j'
  | cons st rest ih =>
    intro pos hpos j'
    exact ih (integrate pos st.1 st.2)
      (fun j'' => inJointRange_integrate pos st.1 st.2 j'' (hpos j'')) j'

lemma clamp_zero (l : ℚ) (h : 0 ≤ l) : clamp (-l) l 0 = 0 := by
  unfold clamp
  rw [min_eq_right h, max_eq_right (neg_nonpos.mpr h)]

/-- Claim C2: for every well-formed inbound `"action"` frame, every numeric
command field absent from the payload decodes to `0.0` (here with the
non-negative velocity limits of any sane configuration, since the base fields
pass through the clamp), so the decoded command always carries a value for
each of the nine velocity fields regardless of which subset the sender
supplied. -/
theorem C2_absent_fields_default_zero (cfg : Config)
    (get : String → Option ℚ)
    (hl : 0 ≤ cfg.max_linear_velocity) (ha : 0 ≤ cfg.max_angular_velocity) :
    (get "x.vel" = none → (decodeAction cfg get).x_vel = 0) ∧
    (get "y.vel" = none → (decodeAction cfg get).y_vel = 0) ∧
    (get "theta.vel" = none → (decodeAction cfg get).theta_vel = 0) ∧
    (get "wrist_flex.vel" = none → (decodeAction cfg get).wrist_flex_vel = 0) ∧
    (get "shoulder_pan.vel" = none →
      (decodeAction cfg get).shoulder_pan_vel = 0) ∧
    (get "shoulder_lift.vel" = none →
      (decodeAction cfg get).shoulder_lift_vel = 0) ∧
    (get "elbow_flex.vel" = none → (decodeAction cfg get).elbow_flex_vel = 0) ∧
    (get "wrist_roll.vel" = none → (decodeAction cfg get).wrist_roll_vel = 0) ∧
    (get "gripper.vel" = none → (decodeAction cfg get).gripper_vel = 0) := by
  refine ⟨fun h => ?_, fun h => ?_, fun h => ?_, fun h => ?_, fun h => ?_,
    fun h => ?_, fun h => ?_, fun h => ?_, fun h => ?_⟩ <;>
    simp [decodeAction, h, clamp_zero, hl, ha]

/-- Witness for C2 at the default configuration and the empty payload. -/
theorem C2_absent_fields_default_zero_witness :
    (decodeAction defaultConfig (fun _ => none)).x_vel = 0 ∧
    (decodeAction defaultConfig (fun _ => none)).gripper_vel = 0 := by
  have h := C2_absent_fields_default_zero defaultConfig (fun _ => none)
    (by norm_num [defaultConfig]) (by norm_num [defaultConfig])
  exact ⟨h.1 rfl, h.2.2.2.2.2.2.2.2 rfl⟩

/-- Claim C3, counterexample: a frame whose `type` is the unrecognized string
`"bogus"` is processed with outcome `ignored` and an unchanged state — a
silent no-op. The source has no `DecodeError(UnknownType)` value at all: the
only error outcome `_process_message` can produce is the caught
`JSONDecodeError` for malformed JSON, and the unrecognized type does not
produce it. -/
theorem C3_unknown_type_counterexample :
    processMessage defaultConfig ⟨[], zeroVelocityAction⟩
        (.object (some "bogus") (fun _ => none))
      = (⟨[], zeroVelocityAction⟩, Outcome.ignored) ∧
    Outcome.ignored ≠ Outcome.parseError := by
  exact ⟨rfl, by decide⟩

/-- Claim C3 as amended: for every inbound frame whose JSON object has a
missing or unrecognized `type` field, the frame is silently discarded — no
explicit error outcome is produced — without changing the command queue or
the current command, and the read loop continues. -/
theorem C3_unknown_type_ignored (cfg : Config) (s : CommandState)
    (t : Option String) (get : String → Option ℚ) (h : t ≠ some "action") :
    processMessage cfg s (.object t get) = (s, Outcome.ignored) := by
  simp [processMessage, h]

/-- Witness for the amended C3 at a frame with a missing `type` field. -/
theorem C3_unknown_type_ignored_witness :
    processMessage defaultConfig ⟨[], zeroVelocityAction⟩
        (.object none (fun _ => none))
      = (⟨[], zeroVelocityAction⟩, Outcome.ignored) :=
  C3_unknown_type_ignored defaultConfig ⟨[], zeroVelocityAction⟩ none
    (fun _ => none) (by decide)

/-- Claim C4, counterexample: with a non-zero current command, processing an
`"emergency_stop"` frame leaves the current command unchanged — and in
particular not equal to the all-zero command — because `_process_message`
only has a branch for `type == "action"`. -/
theorem C4_emergency_stop_counterexample :
    (processMessage defaultConfig ⟨[], cmdPan⟩
        (.object (some "emergency_stop") (fun _ => none))).1.current = cmdPan ∧
    cmdPan ≠ zeroVelocityAction := by
  exact ⟨rfl, by decide⟩

/-- Claim C4 as amended: every inbound frame of type `"emergency_stop"` is
silently ignored: processing it leaves the queue and the current command
unchanged, so no zero-velocity command is triggered. -/
theorem C4_emergency_stop_ignored (cfg : Config) (s : CommandState)
    (get : String → Option ℚ) :
    processMessage cfg s (.object (some "emergency_stop") get)
      = (s, Outcome.ignored) := by
  simp [processMessage]

/-- Claim C5: `get_action` drains the queue non-blockingly, keeping only the
most recently dequeued message as the current command; when the queue is
empty it reuses the previously current one. Since the post-state queue is
always empty, iterating this over any sequence of calls with no producer
keeps returning the last successfully dequeued command. -/
theorem C5_sticky_latest (s : TeleopState) (dt : ℚ)
    (hc : s.connected = true) (hp : s.phoneConnected = true) :
    ∃ out s', getAction s dt = .ok (out, s') ∧ s'.queue = [] ∧
      (s.queue = [] → s'.current = s.current) ∧
      ∀ h : s.queue ≠ [], s'.current = s.queue.getLast h := by
  unfold getAction
  rw [hc, hp]
  refine ⟨_, _, rfl, rfl, ?_, ?_⟩
  · intro hq
    simp [drainQueue, hq]
  · intro hne
    simp [drainQueue, List.getLast?_eq_getLast_of_ne_nil hne]

/-- Witness for C5 at a connected state holding one queued message. -/
theorem C5_sticky_latest_witness :
    ∃ out s', getAction queuedState 0 = .ok (out, s') ∧ s'.queue = [] ∧
      (queuedState.queue = [] → s'.current = queuedState.current) ∧
      ∀ h : queuedState.queue ≠ [],
        s'.current = queuedState.queue.getLast h :=
  C5_sticky_latest queuedState 0 rfl rfl

lemma foldl_enqueue_take (msgs : List VelocityAction) :
    ∀ q : List VelocityAction, q.length ≤ queueCapacity →
      msgs.foldl (fun acc m => (enqueue acc m).1) q
        = (q ++ msgs).take queueCapacity := by
  induction msgs with
  | nil =>
    intro q hq
    simp [List.take_of_length_le hq]
  | cons m rest ih =>
    intro q hq
    rcases lt_or_eq_of_le hq with hlt | heq
    · have h1 : (enqueue q m).1 = q ++ [m] := by simp [enqueue, hlt]
      rw [List.foldl_cons, h1,
        ih (q ++ [m]) (by simpa using Nat.succ_le_of_lt hlt)]
      congr 1
      simp
    · have h1 : (enqueue q m).1 = q := by simp [enqueue, heq]
      rw [List.foldl_cons, h1, ih q hq,
        List.take_append_eq_append_take, List.take_append_eq_append_take,
        heq]
      simp

/-- Claim C6: when more messages than the queue capacity (10) are produced
before a single drain, the burst fills the queue with the first ten messages
and every further enqueue is dropped without error; the subsequent drain
leaves as current exactly the last message that was successfully enqueued —
never an older enqueued one. -/
theorem C6_overflow_drop_and_drain (msgs : List VelocityAction)
    (cur : VelocityAction) (h : queueCapacity < msgs.length) :
    produceBurst msgs = msgs.take queueCapacity ∧
    (∀ m, enqueue (produceBurst msgs) m = (produceBurst msgs, false)) ∧
    ∃ hne : produceBurst msgs ≠ [],
      drainQueue (produceBurst msgs) cur = (produceBurst msgs).getLast hne := by
  have hpb : produceBurst msgs = msgs.take queueCapacity := by
    unfold produceBurst
    rw [foldl_enqueue_take msgs [] (by simp)]
    simp
  have hlen : (produceBurst msgs).length = queueCapacity := by
    rw [hpb, List.length_take]
    omega
  refine ⟨hpb, ?_, ?_⟩
  · intro m
    simp [enqueue, hlen]
  · have hne : produceBurst msgs ≠ [] := by
      intro hnil
      rw [hnil] at hlen
      simp [queueCapacity] at hlen
    exact ⟨hne, by simp [drainQueue, List.getLast?_eq_getLast_of_ne_nil hne]⟩

/-- Witness for C6 at a concrete burst of eleven distinct messages. -/
theorem C6_overflow_drop_and_drain_witness :
    produceBurst burst11 = burst11.take queueCapacity ∧
    (∀ m, enqueue (produceBurst burst11) m = (produceBurst burst11, false)) ∧
    ∃ hne : produceBurst burst11 ≠ [],
      drainQueue (produceBurst burst11) zeroVelocityAction
        = (produceBurst burst11).getLast hne :=
  C6_overflow_drop_and_drain burst11 zeroVelocityAction (by decide)

/-- Claim C7: every decoded `"action"` message has its base velocity fields
clamped at decode time — `x.vel` and `y.vel` to the linear limit interval,
`theta.vel` to the angular one (for the non-negative limits of any sane
configuration) — and these three fields never pass through the integrator:
integration is insensitive to them. -/
theorem C7_base_clamped_bypass_integrator (cfg : Config)
    (get : String → Option ℚ)
    (hl : 0 ≤ cfg.max_linear_velocity) (ha : 0 ≤ cfg.max_angular_velocity) :
    (-cfg.max_linear_velocity ≤ (decodeAction cfg get).x_vel ∧
      (decodeAction cfg get).x_vel ≤ cfg.max_linear_velocity) ∧
    (-cfg.max_linear_velocity ≤ (decodeAction cfg get).y_vel ∧
      (decodeAction cfg get).y_vel ≤ cfg.max_linear_velocity) ∧
    (-cfg.max_angular_velocity ≤ (decodeAction cfg get).theta_vel ∧
      (decodeAction cfg get).theta_vel ≤ cfg.max_angular_velocity) ∧
    ∀ (pos : Joint → ℚ) (dt a b c : ℚ),
      integrate pos
        { decodeAction cfg get with x_vel := a, y_vel := b, theta_vel := c } dt
        = integrate pos (decodeAction cfg get) dt := by
  have hll : -cfg.max_linear_velocity ≤ cfg.max_linear_velocity :=
    le_trans (neg_nonpos.mpr hl) hl
  have haa : -cfg.max_angular_velocity ≤ cfg.max_angular_velocity :=
    le_trans (neg_nonpos.mpr ha) ha
  refine ⟨clamp_mem _ _ _ hll, clamp_mem _ _ _ hll, clamp_mem _ _ _ haa, ?_⟩
  intro pos dt a b c
  funext j
  cases j <;> simp [integrate, jointVel]

/-- Witness for C7 at the default configuration with every field set to 10,
far beyond both limits. -/
theorem C7_base_clamped_bypass_integrator_witness :
    (-defaultConfig.max_linear_velocity
        ≤ (decodeAction defaultConfig (fun _ => some 10)).x_vel ∧
      (decodeAction defaultConfig (fun _ => some 10)).x_vel
        ≤ defaultConfig.max_linear_velocity) ∧
    (-defaultConfig.max_linear_velocity
        ≤ (decodeAction defaultConfig (fun _ => some 10)).y_vel ∧
      (decodeAction defaultConfig (fun _ => some 10)).y_vel
        ≤ defaultConfig.max_linear_velocity) ∧
    (-defaultConfig.max_angular_velocity
        ≤ (decodeAction defaultConfig (fun _ => some 10)).theta_vel ∧
      (decodeAction defaultConfig (fun _ => some 10)).theta_vel
        ≤ defaultConfig.max_angular_velocity) ∧
    ∀ (pos : Joint → ℚ) (dt a b c : ℚ),
      integrate pos
        { decodeAction defaultConfig (fun _ => some 10) with
            x_vel := a, y_vel := b, theta_vel := c } dt
        = integrate pos (decodeAction defaultConfig (fun _ => some 10)) dt :=
  C7_base_clamped_bypass_integrator defaultConfig (fun _ => some 10)
    (by norm_num [defaultConfig]) (by norm_num [defaultConfig])

/-- Claim C8, counterexample: a payload value that is a pre-encoded image
string (recognizable by the `data:image` prefix) falls into the generic
stringified branch and is tagged `"string"`, not `"image"`: no branch of
`_send_observation_async` inspects string values or their prefix. -/
theorem C8_preencoded_string_counterexample :
    encodeEntry (.pyStr "data:image/jpeg;base64,AAAA")
      = ⟨"string", some "data:image/jpeg;base64,AAAA"⟩ ∧
    ("string" : String) ≠ "image" := by
  exact ⟨rfl, by decide⟩

/-- Claim C8 as amended: every telemetry payload entry whose value is a
string — pre-encoded image strings included — is handled by the generic
fallback branch: it is emitted tagged `"string"` with `str(value)` as data;
there is no prefix detection passing strings through tagged `"image"`. -/
theorem C8_strings_tagged_string (s : String) :
    encodeEntry (.pyStr s) = ⟨"string", some s⟩ := rfl

/-- Claim C9: lifecycle error contract — `connect()` while already connected
fails with `AlreadyConnected`; `disconnect()` while not connected fails with
`NotConnected`; `get_action()` in any state other than fully Connected (both
`_connected` and `_phone_connected` set) fails with `NotConnected`. -/
theorem C9_lifecycle_errors (s : TeleopState) (phoneUp : Bool) (dt : ℚ) :
    (s.connected = true → (connect s phoneUp).1 = .error .alreadyConnected) ∧
    (s.connected = false → (disconnect s).1 = .error .notConnected) ∧
    (s.connected = false ∨ s.phoneConnected = false →
      getAction s dt = .error .notConnected) := by
  refine ⟨fun h => ?_, fun h => ?_, fun h => ?_⟩
  · simp [connect, h]
  · simp [disconnect, h]
  · rcases h with h | h <;> simp [getAction, h]

/-- Witness for C9 at a connected and a fresh state. -/
theorem C9_lifecycle_errors_witness :
    (connect connectedState true).1
      = Except.error TeleopError.alreadyConnected ∧
    (disconnect freshState).1 = Except.error TeleopError.notConnected ∧
    getAction freshState 0 = Except.error TeleopError.notConnected :=
  ⟨(C9_lifecycle_errors connectedState true 0).1 rfl,
   (C9_lifecycle_errors freshState true 0).2.1 rfl,
   (C9_lifecycle_errors freshState true 0).2.2 (Or.inl rfl)⟩

/-- Claim C10: when `connect()` times out waiting for the phone, it resets
`_connected` to `False` before raising `DeviceNotConnectedError`, so the
failure is atomic for the lifecycle state: a subsequent `connect()` does not
fail with `AlreadyConnected` but starts a fresh attempt (which succeeds when
the phone comes up). -/
theorem C10_timeout_resets_connected (s : TeleopState)
    (h : s.connected = false) (phoneUp : Bool) :
    (connect s false).1 = .error .notConnected ∧
    ((connect s false).2).connected = false ∧
    (connect (connect s false).2 phoneUp).1 ≠ .error .alreadyConnected ∧
    (connect (connect s false).2 true).1 = .ok () := by
  refine ⟨by simp [connect, h], by simp [connect, h], ?_, by simp [connect, h]⟩
  cases phoneUp <;> simp [connect, h]

/-- Witness for C10 at a fresh state with the retry succeeding. -/
theorem C10_timeout_resets_connected_witness :
    (connect freshState false).1 = Except.error TeleopError.notConnected ∧
    ((connect freshState false).2).connected = false ∧
    (connect (connect freshState false).2 true).1
      ≠ Except.error TeleopError.alreadyConnected ∧
    (connect (connect freshState false).2 true).1 = Except.ok () :=
  C10_timeout_resets_connected freshState rfl true

end PhoneTeleopModel
